import Mathlib

/-!
Verification of the `Utils` plotting repository (stacked/dodged bar plots,
box plots, heatmaps, ridgeline plots).

The Lean definitions below are a shallow embedding of the data-preparation,
validation and layout code of the Python sources under `src/plots/`.
Numeric table cells are modelled as rationals (`ℚ`), tables as lists of
rows, and pandas operations are translated operation by operation:

* `dataset.groupby(meta_column)[cols].sum()/median()/mean()`
  (barplot_stacked_plot.py lines 459-467) becomes `aggregateStacked`;
  pandas `groupby` sorts the group keys, hence `metaKeys` sorts the
  deduplicated meta values;
* the normalization block (lines 469-474) becomes `normalizeRow` /
  `applyNormalization`;
* raised `ValueError`/`TypeError` become `Except.error`; functions that
  print a message and `return None` (heatmap_plot.py) return a
  `PlotOutcome.returned none` value instead of `PlotOutcome.raised`.
-/

namespace PlotUtils

/-- A row of the reduced plotting table `df_plot_final`: the `meta_column`
value together with the numeric values of the categories in
`cols_to_plot_y` (positional, one rational per category). -/
abbrev Row : Type := String × List ℚ

/-- Lexicographic code-point comparison of character lists: the order Python
and pandas use when sorting strings. -/
def listCharLe : List Char → List Char → Bool
  | [], _ => true
  | _ :: _, [] => false
  | a :: as, b :: bs =>
    if a.toNat < b.toNat then true
    else if b.toNat < a.toNat then false
    else listCharLe as bs

/-- String comparison by code points (Python's `str` ordering). -/
def strLe (a b : String) : Bool := listCharLe a.data b.data

/-- Sort a list of strings into ascending code-point order; pandas `groupby`
sorts its group keys, and this models that key order for string-valued meta
columns. -/
def stringSort (l : List String) : List String :=
  l.insertionSort (fun a b => strLe a b = true)

/-- The index of `grouped_df` in barplot_stacked_plot.py line 461: the unique
values of the meta column, in the sorted order produced by
`dataset.groupby(meta_column)` (pandas sort=True default). -/
def metaKeys (rows : List Row) : List String :=
  stringSort (rows.map Prod.fst).dedup

/-- Keep-first deduplication: the semantics of pandas `Series.unique()` and
`DataFrame.drop_duplicates()` (first occurrence wins, order preserved). -/
def dedupKeepFirst {α : Type} [DecidableEq α] (l : List α) : List α :=
  l.foldl (fun acc m => if m ∈ acc then acc else acc ++ [m]) []

/-- `dataset[meta_column].unique()`: the unique meta values in order of first
appearance (used by boxplot.py line 321 for the default meta order, and by
the meta_order validation at barplot_stacked_plot.py line 341). -/
def appearanceOrder (rows : List Row) : List String :=
  dedupKeepFirst (rows.map Prod.fst)

/-- Median of a list of rationals, as computed by pandas `Series.median`:
sort, then take the middle element (odd length) or the mean of the two
middle elements (even length).  The empty case (pandas gives NaN) is mapped
to 0; the plotting code only takes medians of nonempty groups. -/
def medianQ (l : List ℚ) : ℚ :=
  let s := l.insertionSort (fun a b => a ≤ b)
  let n := s.length
  if n = 0 then 0
  else if n % 2 = 1 then s.getD (n / 2) 0
  else (s.getD (n / 2 - 1) 0 + s.getD (n / 2) 0) / 2

/-- One aggregated row of `grouped_df` (barplot_stacked_plot.py lines
459-465): the rows with the given meta value are combined column-wise with
sum (`scaling = 'none'`), median (`'median'`) or mean (`'mean'`).
`k` is the number of plotted value columns (`len(cols_to_plot_y)`). -/
def groupAgg (scaling : String) (k : ℕ) (rows : List Row) (key : String) : List ℚ :=
  let members := rows.filter (fun r => r.1 = key)
  if scaling = "median" then
    (List.range k).map (fun j => medianQ (members.map (fun r => r.2.getD j 0)))
  else if scaling = "mean" then
    (List.range k).map
      (fun j => (members.map (fun r => r.2.getD j 0)).sum / (members.length : ℚ))
  else
    members.foldl (fun acc r => List.zipWith (· + ·) acc r.2) (List.replicate k 0)

/-- The aggregated table `grouped_df = df_plot_final.groupby(meta_column)
[cols_to_plot_y].agg(...)` of barplot_stacked_plot.py lines 459-465: one row
per (sorted) unique meta value. -/
def aggregateStacked (scaling : String) (k : ℕ) (rows : List Row) : List Row :=
  (metaKeys rows).map (fun key => (key, groupAgg scaling k rows key))

/-- Normalization of one aggregated row (barplot_stacked_plot.py lines
469-474): the row sum is computed; a zero sum is replaced by 1 before
dividing (`row_sums[row_sums == 0] = 1`), so a zero-sum row is divided by 1
and left unchanged.  `.fillna(0)` is a no-op over ℚ. -/
def normalizeRow (row : List ℚ) : List ℚ :=
  let s := row.sum
  if s = 0 then row else row.map (fun x => x / s)

/-- `grouped_df_scaled = grouped_df.div(row_sums, axis=0).fillna(0)`
(barplot_stacked_plot.py line 474), applied row by row. -/
def applyNormalization (table : List Row) : List Row :=
  table.map (fun p => (p.1, normalizeRow p.2))

/-- `median_contributions.sort_values(ascending=...)` on the per-category
medians (barplot_stacked_plot.py lines 494-505): sort the (category, median)
pairs by median value.  pandas' default quicksort leaves the order of tied
values unspecified; a stable insertion sort is one refinement of it. -/
def sortPairsBySnd (asc : Bool) (l : List (String × ℚ)) : List (String × ℚ) :=
  if asc then l.insertionSort (fun a b => a.2 ≤ b.2)
  else l.insertionSort (fun a b => b.2 ≤ a.2)

/-- `grouped_df_scaled.median()` (barplot_stacked_plot.py lines 494, 503):
the median contribution of each plotted category across the aggregated
table, keyed by category name (column `j` of the table holds the values of
`cols_to_plot_y[j]`). -/
def medianContribs (cols : List String) (table : List Row) : List (String × ℚ) :=
  cols.enum.map (fun p => (p.2, medianQ (table.map (fun r => r.2.getD p.1 0))))

/-- The plotting order `sorted_categories` of barplot_stacked_plot.py lines
485-509: with `value_order='default'` the `cols_to_plot_y` order is kept and
`'others'` is appended last; in the median modes the categories are sorted
by median contribution and `'others'`, when present, is removed and
re-appended at the end. -/
def sortedCategories (valueOrder : String) (colsToPlotY : List String)
    (table : List Row) : List String :=
  if valueOrder = "default" then
    (colsToPlotY.filter (fun c => c ≠ "others"))
      ++ (if "others" ∈ colsToPlotY then ["others"] else [])
  else
    let base := (sortPairsBySnd (valueOrder = "median_ascending")
      (medianContribs colsToPlotY table)).map Prod.fst
    if "others" ∈ base then (base.erase "others") ++ ["others"] else base

/-- `final_meta_order` of barplot_stacked_plot.py lines 522-535: when
`meta_order` is given it is filtered to the values present in the aggregated
index; otherwise the aggregated index itself (the sorted unique meta values
produced by `groupby`) is used. -/
def finalMetaOrder (metaOrder : Option (List String)) (rows : List Row) : List String :=
  match metaOrder with
  | some mo => mo.filter (fun m => m ∈ metaKeys rows)
  | none => metaKeys rows

/-- The x-coordinate chosen for the bar of meta value `m` in the loop of
barplot_stacked_plot.py lines 570-588: when a previous bar exists and its
group differs, `group_spacing` is added to the running coordinate first. -/
def nextX (gmap : String → String) (sp : ℚ) (prev : Option String) (cx : ℚ)
    (m : String) : ℚ :=
  match prev with
  | some pg => if gmap m ≠ pg then cx + sp else cx
  | none => cx

/-- The grouped bar-placement loop of barplot_stacked_plot.py lines 570-588:
it appends `(meta value, x position)` pairs (the parallel `x_labels` and
`x_positions` lists), advancing the coordinate by 1 after every bar.
`gmap` is `internal_grouping_map` (line 556), total because every meta value
of the final order occurs in the dataset. -/
def stackedXPlacementAux (gmap : String → String) (sp : ℚ) :
    Option String → ℚ → List String → List (String × ℚ)
  | _, _, [] => []
  | prev, cx, m :: rest =>
    (m, nextX gmap sp prev cx m) ::
      stackedXPlacementAux gmap sp (some (gmap m)) (nextX gmap sp prev cx m + 1) rest

/-- Bar placement for the whole final meta order, starting at coordinate 0
with no previous group. -/
def stackedXPlacement (gmap : String → String) (sp : ℚ)
    (order : List String) : List (String × ℚ) :=
  stackedXPlacementAux gmap sp none 0 order

/-- `group_member_counts[g]` of barplot_stacked_plot.py lines 553, 572: the
total number of axis values of the final order mapped to group `g`. -/
def memberCount (order : List String) (gmap : String → String) (g : String) : ℕ :=
  (order.filter (fun m => gmap m = g)).length

/-- Helper for `runLengths`: `g` is the group of the run being accumulated
and `n` its length so far. -/
def runLengthsAux (gmap : String → String) : String → ℕ → List String → List (String × ℕ)
  | g, n, [] => [(g, n)]
  | g, n, m :: rest =>
    if gmap m = g then runLengthsAux gmap g (n + 1) rest
    else (g, n) :: runLengthsAux gmap (gmap m) 1 rest

/-- The segments of `group_label_data`: both bar/box placement loops
(barplot_stacked_plot.py lines 570-592, boxplot.py lines 395-412) emit one
entry per maximal run of consecutive equal group values along the final
order; this returns each run's group together with its length (the number
of axis values in the segment, `len(x_pos_list)` in boxplot.py). -/
def runLengths (order : List String) (gmap : String → String) : List (String × ℕ) :=
  match order with
  | [] => []
  | m :: rest => runLengthsAux gmap (gmap m) 1 rest

/-- The groups for which `create_stacked_barplot` draws a bracket segment
(barplot_stacked_plot.py lines 710-716): each `group_label_data` segment is
drawn iff `group_member_counts[group] > 1`, the group's total count. -/
def stackedDrawnBrackets (order : List String) (gmap : String → String) : List String :=
  (runLengths order gmap).filterMap
    (fun r => if 1 < memberCount order gmap r.1 then some r.1 else none)

/-- The groups for which `create_boxplot` draws a bracket
(boxplot.py lines 424-441 and 561-571): a segment is drawn iff it has more
than one member (`should_draw_bracket = len(x_pos_list) > 1`). -/
def boxplotDrawnBrackets (order : List String) (gmap : String → String) : List String :=
  (runLengths order gmap).filterMap
    (fun r => if 1 < r.2 then some r.1 else none)

/-- The grouping map of the C4 counterexample dataset: meta values m1, m3
belong to group A, m2 to group B. -/
def gmapC4 : String → String := fun m => if m = "m2" then "B" else "A"

/-- Result of running a code fragment that may raise a Python exception
(`raised`) or finish normally with a value (`returned`). -/
inductive PlotOutcome (α : Type) where
  | raised (msg : String)
  | returned (val : α)
deriving DecidableEq

/-- The saving epilogue of `create_stacked_barplot`
(barplot_stacked_plot.py lines 970-993): only the directory creation is
guarded by `if output:`; the three `plt.savefig` calls run unconditionally
on `output + ".pdf"` / `".png"` / `".svg"`.  With `output=None` the very
first concatenation `output + ".pdf"` raises a Python `TypeError`
(`NoneType + str`), modelled here as `raised`; otherwise the three files
are written. -/
def stackedSaveStep (output : Option String) : PlotOutcome (List String) :=
  match output with
  | none => PlotOutcome.raised "TypeError: unsupported operand types for +: NoneType and str"
  | some o => PlotOutcome.returned [o ++ ".pdf", o ++ ".png", o ++ ".svg"]

/-- The saving epilogue of `create_dodged_barplot`
(barplot_dodged_plot.py lines 104-118): the whole block is guarded by
`if output:`, so with `output=None` nothing is written and the function
completes; the returned list holds the files written. -/
def dodgedSaveStep (output : Option String) : List String :=
  match output with
  | none => []
  | some o => [o ++ ".pdf", o ++ ".png"]

/-- `if col: ... if col not in dataset.columns: raise` for an optional
column parameter (group_by_column, boxes_column, hue_column): true iff the
parameter is provided and names a column absent from the dataset. -/
def optionColMissing (o : Option String) (cols : List String) : Bool :=
  match o with
  | some c => !(cols.contains c)
  | none => false

/-- The collapse-name collision test of barplot_stacked_plot.py lines
293-296: the chosen name already exists as a dataset column and is neither
one of the value columns nor the meta column. -/
def collapseCollision (o : Option String) (cols valueCols : List String)
    (meta : String) : Bool :=
  match o with
  | some c => cols.contains c && !(valueCols.contains c) && !(c == meta)
  | none => false

/-- `dataset[[meta_column, other]].drop_duplicates().duplicated(
subset=[meta_column]).any()` (barplot_stacked_plot.py lines 319-320,
356-357; boxplot.py lines 241-242): after keep-first deduplication of the
(meta, other) pairs, some meta value still occurs twice, i.e. it maps to
two distinct values of the other column. -/
def inconsistentPairs (pairs : List (String × String)) : Bool :=
  !(decide ((dedupKeepFirst pairs).map Prod.fst).Nodup)

/-- `not set(dataset_meta_values).issubset(set(meta_order))`
(barplot_stacked_plot.py lines 341-344): some dataset meta value is missing
from the provided meta_order. -/
def metaOrderNotSubset (o : Option (List String)) (dvals : List String) : Bool :=
  match o with
  | some mo => !(dvals.all (fun m => mo.contains m))
  | none => false

/-- `len(meta_order) != len(set(meta_order))` (barplot_stacked_plot.py
line 346): the provided meta_order contains duplicates. -/
def metaOrderHasDup (o : Option (List String)) : Bool :=
  match o with
  | some mo => !(mo.length == mo.dedup.length)
  | none => false

/-- The value-level arguments of `create_stacked_barplot` that its
validation block (barplot_stacked_plot.py lines 269-364) inspects.
`datasetCols` is `dataset.columns`; `metaGroupPairs` / `metaBoxesPairs`
are the (meta, group) / (meta, boxes) value pairs of the dataset rows;
`datasetMetaValues` is `dataset[meta_column].unique()`.  Pure type checks
(`isinstance`) are enforced by the Lean types and not modelled. -/
structure StackedParams where
  datasetCols : List String
  meta_column : String
  value_columns : List String
  focus_value : List String
  collapse_focus_values_as : Option String
  ax_width : Option ℚ
  aspect : Option ℚ
  group_by_column : Option String
  metaGroupPairs : List (String × String)
  group_position : String
  scaling : String
  value_order : String
  meta_order : Option (List String)
  datasetMetaValues : List String
  boxes_column : Option String
  metaBoxesPairs : List (String × String)

/-- A sequence of Python `if cond: raise msg` checks, run in order: the
first true condition raises (`Except.error`) and later checks never run. -/
def firstError (checks : List (Bool × String)) : Except String Unit :=
  match checks with
  | [] => Except.ok ()
  | (b, msg) :: rest => if b then Except.error msg else firstError rest

/-- The conditions of the validation block of `create_stacked_barplot`
(barplot_stacked_plot.py lines 269-364), in source order, each paired with
its error message; `isinstance` type checks are enforced by the Lean types
and not modelled. -/
def stackedChecks (p : StackedParams) : List (Bool × String) :=
  [ (!(p.datasetCols.contains p.meta_column),
      "Column meta_column not found in the dataset."),
    (!(p.value_columns.all (fun c => p.datasetCols.contains c)),
      "Not all columns in value_columns found in the dataset."),
    (!(p.focus_value.all (fun c => p.value_columns.contains c)),
      "All columns in focus_value must also be present in value_columns."),
    (p.collapse_focus_values_as.isSome && p.focus_value.isEmpty,
      "focus_value cannot be empty if collapse_focus_values_as is provided, as there would be nothing to collapse."),
    (p.collapse_focus_values_as == some "others",
      "collapse_focus_values_as cannot be named others as it conflicts with an internal category name."),
    (collapseCollision p.collapse_focus_values_as p.datasetCols
        p.value_columns p.meta_column,
      "The chosen name for the collapsed category already exists as a column in the original dataset."),
    ((p.ax_width.isNone && p.aspect.isSome)
        || (p.ax_width.isSome && p.aspect.isNone),
      "Both ax_width and aspect must be specified together"),
    (optionColMissing p.group_by_column p.datasetCols,
      "Column group_by_column not found in the dataset."),
    (p.group_by_column.isSome && inconsistentPairs p.metaGroupPairs,
      "Each value in meta_column must correspond to a single value in group_by_column."),
    (!((["bottom", "middle", "top"] : List String).contains p.group_position),
      "Invalid value for group_position."),
    (!((["none", "median", "mean"] : List String).contains p.scaling),
      "Invalid value for scaling."),
    (!((["default", "median_descending", "median_ascending"] : List String).contains p.value_order),
      "Invalid value for value_order."),
    (metaOrderNotSubset p.meta_order p.datasetMetaValues,
      "Not all unique values from meta_column are present in meta_order."),
    (metaOrderHasDup p.meta_order,
      "Meta_order list must not contain duplicate values."),
    (optionColMissing p.boxes_column p.datasetCols,
      "Column boxes_column not found in the dataset"),
    (p.boxes_column.isSome && inconsistentPairs p.metaBoxesPairs,
      "Each value in meta_column should correspond to a unique value in boxes_column") ]

/-- The validation block of `create_stacked_barplot`
(barplot_stacked_plot.py lines 269-364): the checks run in order and the
first failing one raises. -/
def stackedValidate (p : StackedParams) : Except String Unit :=
  firstError (stackedChecks p)

/-- Validation followed by the aggregation/normalization stage of
`create_stacked_barplot`: the aggregated table is only produced when every
validation check passed (a raise propagates out of the function before any
aggregation). -/
def stackedPipeline (p : StackedParams) (k : ℕ) (rows : List Row)
    (normalize : Bool) : Except String (List Row) :=
  match stackedValidate p with
  | Except.error e => Except.error e
  | Except.ok _ =>
    Except.ok (if normalize then applyNormalization (aggregateStacked p.scaling k rows)
      else aggregateStacked p.scaling k rows)

/-- The column-presence and consistency checks of `create_boxplot`
(boxplot.py lines 210-258), in source order: meta column, value columns
(list variant, line 216), hue column, grouping column and its consistency,
group position, meta_order subset and duplicates.  Type-only checks and the
later melted-name checks are not modelled. -/
def boxplotChecks (cols : List String) (meta : String) (valueCols : List String)
    (hue groupBy : Option String) (metaGroupPairs : List (String × String))
    (groupPosition : String) (metaOrder : Option (List String))
    (dvals : List String) : List (Bool × String) :=
  [ (!(cols.contains meta), "Column meta_column not found in the dataset."),
    (!(valueCols.all (fun c => cols.contains c)),
      "Not all columns in value_column found in the dataset."),
    (optionColMissing hue cols, "Column hue_column not found in the dataset."),
    (optionColMissing groupBy cols, "Column group_by_column not found in the dataset."),
    (groupBy.isSome && inconsistentPairs metaGroupPairs,
      "Each value in meta_column must correspond to a single value in group_by_column."),
    (!((["bottom", "middle", "top"] : List String).contains groupPosition),
      "Invalid value for group_position."),
    (metaOrderNotSubset metaOrder dvals,
      "Not all unique values from meta_column are present in meta_order."),
    (metaOrderHasDup metaOrder, "Meta_order list must not contain duplicate values.") ]

/-- The validation block of `create_boxplot` (boxplot.py lines 210-258). -/
def boxplotValidate (cols : List String) (meta : String) (valueCols : List String)
    (hue groupBy : Option String) (metaGroupPairs : List (String × String))
    (groupPosition : String) (metaOrder : Option (List String))
    (dvals : List String) : Except String Unit :=
  firstError (boxplotChecks cols meta valueCols hue groupBy metaGroupPairs
    groupPosition metaOrder dvals)

/-- The validation block of `create_dodged_barplot`
(barplot_dodged_plot.py lines 24-37), in source order. -/
def dodgedChecks (cols : List String) (meta : String)
    (valueCols focus : List String) : List (Bool × String) :=
  [ (!(cols.contains meta), "Column meta_column not found in the dataset."),
    (!(valueCols.all (fun c => cols.contains c)),
      "Not all columns in value_columns found in the dataset."),
    (!(focus.all (fun c => valueCols.contains c)),
      "All columns in focus_value must also be present in value_columns.") ]

/-- `create_dodged_barplot` validation (barplot_dodged_plot.py lines 24-37). -/
def dodgedValidate (cols : List String) (meta : String)
    (valueCols focus : List String) : Except String Unit :=
  firstError (dodgedChecks cols meta valueCols focus)

/-- The validation block of `ridgeline_from_known_density_plot`
(ridgeline_from_known_density_plot.py lines 92-115), in source order:
column presence for the x, density and category columns, numeric dtype of
the x and density columns (passed as booleans), the overlap range, the
category_order subset check and the normalization enumeration. -/
def ridgelineChecks (cols : List String) (xcol dcol ccol : String)
    (xNumeric densityNumeric : Bool) (overlap : ℚ)
    (categoryOrder : Option (List String)) (catVals : List String)
    (normalization : Option String) : List (Bool × String) :=
  [ (!(cols.contains xcol), "Column x_column not found in the dataset."),
    (!(cols.contains dcol), "Column density_column not found in the dataset."),
    (!(cols.contains ccol), "Column category_column not found in the dataset."),
    (!xNumeric, "Column x_column must be numeric."),
    (!densityNumeric, "Column density_column must be numeric."),
    (decide (¬ (0 ≤ overlap ∧ overlap ≤ 1)), "Overlap must be between 0 and 1."),
    ((match categoryOrder with
      | some co => !(co.all (fun c => catVals.contains c))
      | none => false),
      "All categories in category_order must be present in category_column."),
    ((match normalization with
      | some nz => !(nz == "mean" || nz == "median")
      | none => false),
      "Invalid value for normalization. Choose from mean or median.") ]

/-- `ridgeline_from_known_density_plot` validation
(ridgeline_from_known_density_plot.py lines 92-115). -/
def ridgelineValidate (cols : List String) (xcol dcol ccol : String)
    (xNumeric densityNumeric : Bool) (overlap : ℚ)
    (categoryOrder : Option (List String)) (catVals : List String)
    (normalization : Option String) : Except String Unit :=
  firstError (ridgelineChecks cols xcol dcol ccol xNumeric densityNumeric
    overlap categoryOrder catVals normalization)

/-- The abundance filter of `create_heatmap` (heatmap_plot.py lines
127-139): a value column is kept iff the fraction of rows whose value is
`>= min_relative_abundance` is `>= min_sample_percentage`.  `columnData`
associates each dataset column name with its values; `numSamples` is
`len(df)`. -/
def heatmapFilter (valueCols : List String) (columnData : List (String × List ℚ))
    (minRelAb minSampPct : ℚ) (numSamples : ℕ) : List String :=
  valueCols.filter (fun c =>
    match columnData.lookup c with
    | some vals =>
      decide (minSampPct ≤ ((vals.countP (fun v => decide (minRelAb ≤ v)) : ℚ)
        / (numSamples : ℚ)))
    | none => false)

/-- The early phase of `create_heatmap` (heatmap_plot.py lines 91-145):
every failed check prints a message and returns `None` (never raises); on
success the filtered value columns are handed to the plotting phase.
Checks modelled (in source order): empty input, the ranges of
`min_relative_abundance` and `min_sample_percentage`, missing columns
(lines 120-125), and the abundance filter leaving no columns (141-143). -/
def heatmapPrepare (numSamples : ℕ) (columnData : List (String × List ℚ))
    (valueCols metadataCols : List String) (minRelAb minSampPct : ℚ) :
    PlotOutcome (Option (List String)) :=
  if numSamples = 0 ∨ columnData = [] then PlotOutcome.returned none
  else if ¬ (0 ≤ minRelAb ∧ minRelAb ≤ 1) then PlotOutcome.returned none
  else if ¬ (0 ≤ minSampPct ∧ minSampPct ≤ 1) then PlotOutcome.returned none
  else if ((valueCols ++ metadataCols).filter
      (fun c => ¬ (c ∈ columnData.map Prod.fst))) ≠ [] then
    PlotOutcome.returned none
  else if heatmapFilter valueCols columnData minRelAb minSampPct numSamples = [] then
    PlotOutcome.returned none
  else
    PlotOutcome.returned (some (heatmapFilter valueCols columnData minRelAb
      minSampPct numSamples))

theorem listCharLe_total : ∀ xs ys, listCharLe xs ys = true ∨ listCharLe ys xs = true
  | [], _ => Or.inl rfl
  | _ :: _, [] => Or.inr rfl
  | a :: as, b :: bs => by
    by_cases h1 : a.toNat < b.toNat
    · left; simp [listCharLe, h1]
    · by_cases h2 : b.toNat < a.toNat
      · right; simp [listCharLe, h2, h1]
      · rcases listCharLe_total as bs with h | h
        · left; simp [listCharLe, h1, h2, h]
        · right; simp [listCharLe, h1, h2, h]

theorem listCharLe_trans :
    ∀ xs ys zs, listCharLe xs ys = true → listCharLe ys zs = true →
      listCharLe xs zs = true
  | [], _, _ => fun _ _ => rfl
  | _ :: _, [], _ => by simp [listCharLe]
  | _ :: _, _ :: _, [] => by simp [listCharLe]
  | a :: as, b :: bs, c :: cs => by
    intro h1 h2
    simp only [listCharLe] at h1 h2 ⊢
    by_cases hab : a.toNat < b.toNat <;> by_cases hbc : b.toNat < c.toNat
    · simp [Nat.lt_trans hab hbc]
    · have hcb : ¬ c.toNat < b.toNat := by
        intro hc; simp [hbc, hc] at h2
      have hbc2 : b.toNat = c.toNat := Nat.le_antisymm (Nat.le_of_not_lt hcb) (Nat.le_of_not_lt hbc)
      simp [hbc2 ▸ hab]
    · have hba : ¬ b.toNat < a.toNat := by
        intro hb; simp [hab, hb] at h1
      have hab2 : a.toNat = b.toNat := Nat.le_antisymm (Nat.le_of_not_lt hba) (Nat.le_of_not_lt hab)
      simp [hab2, hbc]
    · have hba : ¬ b.toNat < a.toNat := by
        intro hb; simp [hab, hb] at h1
      have hcb : ¬ c.toNat < b.toNat := by
        intro hc; simp [hbc, hc] at h2
      have hab2 : a.toNat = b.toNat := Nat.le_antisymm (Nat.le_of_not_lt hba) (Nat.le_of_not_lt hab)
      have hbc2 : b.toNat = c.toNat := Nat.le_antisymm (Nat.le_of_not_lt hcb) (Nat.le_of_not_lt hbc)
      simp only [hab, hba, hbc, hcb, if_neg, ite_false] at h1 h2
      simp [hab2, hbc2, listCharLe_trans as bs cs h1 h2]

theorem strLe_isTotal : ∀ a b : String, strLe a b = true ∨ strLe b a = true :=
  fun a b => listCharLe_total a.data b.data

theorem strLe_isTrans :
    ∀ a b c : String, strLe a b = true → strLe b c = true → strLe a c = true :=
  fun a b c => listCharLe_trans a.data b.data c.data

theorem mem_foldl_insertNew {α : Type} [DecidableEq α] (x : α) :
    ∀ (l acc : List α),
      (x ∈ l.foldl (fun acc m => if m ∈ acc then acc else acc ++ [m]) acc
        ↔ x ∈ acc ∨ x ∈ l) := by
  intro l
  induction l with
  | nil => intro acc; simp
  | cons a t ih =>
    intro acc
    rw [List.foldl_cons]
    by_cases ha : a ∈ acc
    · rw [if_pos ha, ih]
      constructor
      · rintro (h | h)
        · exact Or.inl h
        · exact Or.inr (List.mem_cons_of_mem a h)
      · rintro (h | h)
        · exact Or.inl h
        · rcases List.mem_cons.mp h with rfl | h
          · exact Or.inl ha
          · exact Or.inr h
    · rw [if_neg ha, ih]
      constructor
      · rintro (h | h)
        · rcases List.mem_append.mp h with h | h
          · exact Or.inl h
          · have hxa : x = a := List.mem_singleton.mp h
            exact Or.inr (hxa ▸ List.mem_cons_self a t)
        · exact Or.inr (List.mem_cons_of_mem a h)
      · rintro (h | h)
        · exact Or.inl (List.mem_append.mpr (Or.inl h))
        · rcases List.mem_cons.mp h with rfl | h
          · exact Or.inl (List.mem_append.mpr (Or.inr (List.mem_singleton.mpr rfl)))
          · exact Or.inr h

theorem mem_dedupKeepFirst {α : Type} [DecidableEq α] (x : α) (l : List α) :
    x ∈ dedupKeepFirst l ↔ x ∈ l := by
  rw [dedupKeepFirst, mem_foldl_insertNew]
  simp

theorem sum_map_div (l : List ℚ) (s : ℚ) :
    (l.map (fun x => x / s)).sum = l.sum / s := by
  induction l with
  | nil => simp
  | cons a t ih => simp [ih, add_div]

theorem eq_zero_of_mem_of_sum_eq_zero {l : List ℚ} (hnn : ∀ x ∈ l, 0 ≤ x)
    (hs : l.sum = 0) : ∀ x ∈ l, x = 0 := by
  induction l with
  | nil => simp
  | cons a t ih =>
    have ha : 0 ≤ a := hnn a (by simp)
    have ht : 0 ≤ t.sum := List.sum_nonneg (fun x hx => hnn x (by simp [hx]))
    have hsum : a + t.sum = 0 := by simpa using hs
    have ha0 : a = 0 := le_antisymm (by linarith) ha
    have ht0 : t.sum = 0 := by linarith
    intro x hx
    rcases List.mem_cons.mp hx with h | h
    · simpa [h] using ha0
    · exact ih (fun y hy => hnn y (by simp [hy])) ht0 x h

theorem groupAgg_none (k : ℕ) (rows : List Row) (key : String) :
    groupAgg "none" k rows key
      = (rows.filter (fun r => r.1 = key)).foldl
          (fun acc r => List.zipWith (· + ·) acc r.2) (List.replicate k 0) := by
  simp [groupAgg, show ("none" : String) ≠ "median" from by decide,
    show ("none" : String) ≠ "mean" from by decide]

/-- Claim C1 (amended).  For every row of the table aggregated by
`create_stacked_barplot`, normalization (`normalize_data=True`) makes the
row sum 1 whenever the pre-normalization sum is nonzero; a row whose
pre-normalization sum is 0 is left unchanged by the normalization step
(it is divided by 1), so its sum stays 0, and it consists of zeros whenever
its entries are nonnegative (which need not hold for mixed-sign data). -/
theorem claimC1_amended (scaling : String) (k : ℕ) (rows : List Row)
    (p : String × List ℚ) (_hp : p ∈ aggregateStacked scaling k rows) :
    (p.2.sum ≠ 0 → (normalizeRow p.2).sum = 1)
    ∧ (p.2.sum = 0 → normalizeRow p.2 = p.2)
    ∧ (p.2.sum = 0 → (∀ x ∈ p.2, 0 ≤ x) → ∀ x ∈ normalizeRow p.2, x = 0) := by
  refine ⟨?_, ?_, ?_⟩
  · intro hs
    simp only [normalizeRow]
    rw [if_neg hs, sum_map_div, div_self hs]
  · intro hs
    simp only [normalizeRow]
    rw [if_pos hs]
  · intro hs hnn
    simp only [normalizeRow]
    rw [if_pos hs]
    exact eq_zero_of_mem_of_sum_eq_zero hnn hs

/-- Witness for `claimC1_amended` at a concrete aggregated row. -/
theorem claimC1_witness : (normalizeRow [(1:ℚ), 3]).sum = 1 :=
  (claimC1_amended "none" 2 [("A", [1, 3])] ("A", [1, 3])
    (by norm_num [aggregateStacked, metaKeys, stringSort, groupAgg_none,
      List.insertionSort, List.orderedInsert, List.replicate])).1 (by norm_num)

/-- Counterexample to claim C1 as stated: on the valid one-row table with
value columns holding 1 and -1, the aggregated row has pre-normalization
sum 0, and after normalization it remains `[1, -1]`, which is not all
zeros (its sum is 0, but the row does not "remain all zeros"). -/
theorem claimC1_counterexample :
    applyNormalization (aggregateStacked "none" 2 [("A", [(1:ℚ), -1])])
      = [("A", [1, -1])]
    ∧ ([(1:ℚ), -1].sum = 0)
    ∧ [(1:ℚ), -1] ≠ [0, 0] := by
  refine ⟨?_, by norm_num, by norm_num⟩
  norm_num [applyNormalization, aggregateStacked, metaKeys, stringSort,
    groupAgg_none, normalizeRow, List.insertionSort, List.orderedInsert,
    List.replicate]

/-- Claim C7.  For the table with axis column `site` holding rows A, A, B
and two value columns, `create_stacked_barplot` with `scaling='none'` (sum
aggregation) and `normalize_data=True` produces row A equal to the
proportions of the summed first and second columns over both A rows, and
row B equal to the proportions of its single row's two values. -/
theorem claimC7_sum_normalize (ax1 ay1 ax2 ay2 bx bz : ℚ)
    (hA : (ax1 + ax2) + (ay1 + ay2) ≠ 0) (hB : bx + bz ≠ 0) :
    applyNormalization (aggregateStacked "none" 2
        [("A", [ax1, ay1]), ("A", [ax2, ay2]), ("B", [bx, bz])])
      = [("A", [(ax1 + ax2) / ((ax1 + ax2) + (ay1 + ay2)),
                (ay1 + ay2) / ((ax1 + ax2) + (ay1 + ay2))]),
         ("B", [bx / (bx + bz), bz / (bx + bz)])] := by
  have hkeys : metaKeys [("A", [ax1, ay1]), ("A", [ax2, ay2]), ("B", [bx, bz])]
      = ["A", "B"] := by
    have hmap : ([("A", [ax1, ay1]), ("A", [ax2, ay2]), ("B", [bx, bz])].map Prod.fst)
        = ["A", "A", "B"] := rfl
    rw [metaKeys, hmap]
    decide
  have hfA : [("A", [ax1, ay1]), ("A", [ax2, ay2]), ("B", [bx, bz])].filter
      (fun r => r.1 = "A") = [("A", [ax1, ay1]), ("A", [ax2, ay2])] := rfl
  have hfB : [("A", [ax1, ay1]), ("A", [ax2, ay2]), ("B", [bx, bz])].filter
      (fun r => r.1 = "B") = [("B", [bx, bz])] := rfl
  simp only [applyNormalization, aggregateStacked, hkeys, groupAgg_none, hfA, hfB,
    List.map_cons, List.map_nil, List.replicate, List.foldl_cons, List.foldl_nil,
    List.zipWith_cons_cons, List.zipWith_nil_left, zero_add]
  simp only [normalizeRow, List.sum_cons, List.sum_nil, add_zero]
  rw [if_neg hA, if_neg hB]
  simp

/-- Witness for `claimC7_sum_normalize` at concrete values
(A rows (1,2) and (3,4), B row (5,6)). -/
theorem claimC7_witness :
    applyNormalization (aggregateStacked "none" 2
        [("A", [1, 2]), ("A", [3, 4]), ("B", [5, 6])])
      = [("A", [((1:ℚ) + 3) / (((1:ℚ) + 3) + ((2:ℚ) + 4)),
                ((2:ℚ) + 4) / (((1:ℚ) + 3) + ((2:ℚ) + 4))]),
         ("B", [(5:ℚ) / ((5:ℚ) + 6), (6:ℚ) / ((5:ℚ) + 6)])] :=
  claimC7_sum_normalize 1 2 3 4 5 6 (by norm_num) (by norm_num)

theorem medianContribs_map_fst (cols : List String) (table : List Row) :
    (medianContribs cols table).map Prod.fst = cols := by
  unfold medianContribs
  rw [List.map_map]
  have : (Prod.fst ∘ fun p : ℕ × String =>
      (p.2, medianQ (List.map (fun r : Row => r.2.getD p.1 0) table)))
      = Prod.snd := by
    funext p
    rfl
  rw [this, List.enum_map_snd]

/-- Claim C3.  Whenever `'others'` is among the plotted categories, it is
the final entry of the plotting order computed by `create_stacked_barplot`,
for every `value_order` mode ('default', 'median_descending',
'median_ascending'). -/
theorem claimC3_others_last (valueOrder : String) (colsToPlotY : List String)
    (table : List Row) (h : "others" ∈ colsToPlotY) :
    (sortedCategories valueOrder colsToPlotY table).getLast? = some "others" := by
  unfold sortedCategories
  by_cases hvo : valueOrder = "default"
  · rw [if_pos hvo, if_pos h, List.getLast?_concat]
  · rw [if_neg hvo]
    have hperm : (sortPairsBySnd (valueOrder = "median_ascending")
        (medianContribs colsToPlotY table)).Perm (medianContribs colsToPlotY table) := by
      unfold sortPairsBySnd
      split_ifs <;> exact List.perm_insertionSort _ _
    have hmem : "others" ∈ (sortPairsBySnd (valueOrder = "median_ascending")
        (medianContribs colsToPlotY table)).map Prod.fst := by
      rw [(hperm.map Prod.fst).mem_iff, medianContribs_map_fst]
      exact h
    rw [if_pos hmem, List.getLast?_concat]

/-- Witness for `claimC3_others_last` at a concrete category list. -/
theorem claimC3_witness :
    (sortedCategories "default" ["x", "others"] []).getLast? = some "others" :=
  claimC3_others_last "default" ["x", "others"] [] (by decide)

theorem stackedXPlacementAux_map_fst (gmap : String → String) (sp : ℚ) :
    ∀ (order : List String) (prev : Option String) (cx : ℚ),
      (stackedXPlacementAux gmap sp prev cx order).map Prod.fst = order := by
  intro order
  induction order with
  | nil => intro prev cx; rfl
  | cons m rest ih =>
    intro prev cx
    simp [stackedXPlacementAux, ih]

theorem stackedXPlacementAux_chain (gmap : String → String) (sp : ℚ) :
    ∀ (order : List String) (prev : Option String) (cx : ℚ),
      List.Chain' (fun a b => b.2 = a.2 + 1 + (if gmap b.1 ≠ gmap a.1 then sp else 0))
        (stackedXPlacementAux gmap sp prev cx order) := by
  intro order
  induction order with
  | nil => intro prev cx; simp [stackedXPlacementAux]
  | cons m rest ih =>
    intro prev cx
    cases rest with
    | nil => simp [stackedXPlacementAux]
    | cons m2 rest2 =>
      rw [stackedXPlacementAux, stackedXPlacementAux]
      refine List.chain'_cons.mpr ⟨?_, ?_⟩
      · show nextX gmap sp (some (gmap m)) (nextX gmap sp prev cx m + 1) m2
          = nextX gmap sp prev cx m + 1 + (if gmap m2 ≠ gmap m then sp else 0)
        by_cases hg : gmap m2 ≠ gmap m
        · simp only [nextX, if_pos hg]
        · simp only [nextX, if_neg hg, add_zero]
      · have := ih (some (gmap m)) (nextX gmap sp prev cx m + 1)
        rw [stackedXPlacementAux] at this
        exact this

theorem mem_metaKeys (m : String) (rows : List Row) :
    m ∈ metaKeys rows ↔ m ∈ rows.map Prod.fst := by
  unfold metaKeys stringSort
  rw [(List.perm_insertionSort _ _).mem_iff, List.mem_dedup]

/-- Claim C8 (amended).  Bar x-positions in `create_stacked_barplot` are
sequential: the first bar sits at 0, and each next bar sits 1 further, plus
`group_spacing` exactly when its group differs from the previous bar's
group.  The left-to-right order of axis values equals `meta_order` filtered
to the values present when `meta_order` is provided; otherwise it is the
unique axis values in ascending sorted order (pandas `groupby` sorts its
keys), not the order of appearance.  Grouping itself never reorders the
axis values. -/
theorem claimC8_amended (gmap : String → String) (sp : ℚ)
    (metaOrder : Option (List String)) (rows : List Row) :
    ((stackedXPlacement gmap sp (finalMetaOrder metaOrder rows)).map Prod.fst
        = finalMetaOrder metaOrder rows)
    ∧ List.Chain' (fun a b => b.2 = a.2 + 1 + (if gmap b.1 ≠ gmap a.1 then sp else 0))
        (stackedXPlacement gmap sp (finalMetaOrder metaOrder rows))
    ∧ ((stackedXPlacement gmap sp (finalMetaOrder metaOrder rows)).head?
        = (finalMetaOrder metaOrder rows).head?.map (fun m => (m, (0:ℚ))))
    ∧ (metaOrder = none →
        (finalMetaOrder metaOrder rows).Sorted (fun a b => strLe a b = true)
        ∧ ∀ m, m ∈ finalMetaOrder metaOrder rows ↔ m ∈ rows.map Prod.fst)
    ∧ (∀ mo, metaOrder = some mo →
        finalMetaOrder metaOrder rows = mo.filter (fun m => m ∈ metaKeys rows)) := by
  refine ⟨stackedXPlacementAux_map_fst gmap sp _ none 0,
    stackedXPlacementAux_chain gmap sp _ none 0, ?_, ?_, ?_⟩
  · cases finalMetaOrder metaOrder rows with
    | nil => rfl
    | cons m rest => rfl
  · rintro rfl
    constructor
    · exact @List.sorted_insertionSort String (fun a b => strLe a b = true) _
        ⟨strLe_isTotal⟩ ⟨fun a b c => strLe_isTrans a b c⟩ _
    · intro m
      exact mem_metaKeys m rows
  · rintro mo rfl
    rfl

/-- Witness for `claimC8_amended` at a concrete grouping and order. -/
theorem claimC8_witness :
    (stackedXPlacement (fun m => if m = "m2" then "G2" else "G1") 2
        (finalMetaOrder none [("m1", [1]), ("m2", [1])])).map Prod.fst
      = finalMetaOrder none [("m1", [1]), ("m2", [1])] :=
  (claimC8_amended (fun m => if m = "m2" then "G2" else "G1") 2 none
    [("m1", [1]), ("m2", [1])]).1

/-- Counterexample to the order clause of claim C8 as stated: on a dataset
whose meta values appear in the order B, A and with no `meta_order`, the
final plotting order is the sorted `["A", "B"]`, not the appearance order
`["B", "A"]` claimed by the spec. -/
theorem claimC8_counterexample :
    finalMetaOrder none [("B", [1]), ("A", [2])] = ["A", "B"]
    ∧ appearanceOrder [("B", [1]), ("A", [2])] = ["B", "A"]
    ∧ (["A", "B"] : List String) ≠ ["B", "A"] := by
  refine ⟨by decide, by decide, by decide⟩

theorem runLengthsAux_filter_sum (gmap : String → String) (g : String) :
    ∀ (rest : List String) (g0 : String) (n : ℕ),
      (((runLengthsAux gmap g0 n rest).filter (fun r => r.1 = g)).map Prod.snd).sum
        = (if g0 = g then n else 0) + (rest.filter (fun m => gmap m = g)).length := by
  intro rest
  induction rest with
  | nil =>
    intro g0 n
    by_cases h : g0 = g
    · simp [runLengthsAux, h]
    · simp [runLengthsAux, h]
  | cons m rest ih =>
    intro g0 n
    by_cases hm : gmap m = g0
    · rw [runLengthsAux, if_pos hm, ih g0 (n + 1)]
      by_cases h : g0 = g
      · have hmg : gmap m = g := by rw [h] at hm; exact hm
        rw [if_pos h, if_pos h, List.filter_cons_of_pos (by simp [hmg])]
        simp
        omega
      · have hmg : ¬ gmap m = g := by
          intro hc
          rw [hm] at hc
          exact h hc
        rw [if_neg h, if_neg h, List.filter_cons_of_neg (by simp [hmg])]
    · rw [runLengthsAux, if_neg hm]
      by_cases h : g0 = g
      · have hmg : ¬ gmap m = g := by rw [h] at hm; exact hm
        rw [List.filter_cons_of_pos (by simp [h]), List.map_cons,
          List.sum_cons, ih (gmap m) 1, if_neg hmg,
          List.filter_cons_of_neg (by simp [hmg]), if_pos h]
        omega
      · rw [List.filter_cons_of_neg (by simp [h]), ih (gmap m) 1, if_neg h]
        by_cases hmg : gmap m = g
        · rw [if_pos hmg, List.filter_cons_of_pos (by simp [hmg])]
          simp
          omega
        · rw [if_neg hmg, List.filter_cons_of_neg (by simp [hmg])]

theorem runLengths_filter_sum (order : List String) (gmap : String → String)
    (g : String) :
    (((runLengths order gmap).filter (fun r => r.1 = g)).map Prod.snd).sum
      = memberCount order gmap g := by
  cases order with
  | nil => simp [runLengths, memberCount]
  | cons m rest =>
    rw [runLengths, runLengthsAux_filter_sum, memberCount]
    by_cases hm : gmap m = g
    · simp [List.filter_cons, hm]
      omega
    · simp [List.filter_cons, hm]

/-- Claim C4 (amended).  In both `create_stacked_barplot` and
`create_boxplot`, a group with a single member never gets a bracket; and
whenever a group's members are contiguous in the final order (it forms a
single segment — the intended usage), a bracket is drawn for it iff it has
more than one member.  (For a group split into several runs by a
non-contiguous order the two functions differ: the stacked barplot draws a
bracket on every run of a group whose total count exceeds one, while the
boxplot only draws on runs that themselves have more than one member.) -/
theorem claimC4_amended (order : List String) (gmap : String → String)
    (g : String) :
    (memberCount order gmap g = 1 →
      g ∉ stackedDrawnBrackets order gmap ∧ g ∉ boxplotDrawnBrackets order gmap)
    ∧ (((runLengths order gmap).filter (fun r => r.1 = g)).length = 1 →
      (g ∈ stackedDrawnBrackets order gmap ↔ 1 < memberCount order gmap g)
      ∧ (g ∈ boxplotDrawnBrackets order gmap ↔ 1 < memberCount order gmap g)) := by
  constructor
  · intro hone
    constructor
    · intro hmem
      rcases List.mem_filterMap.mp hmem with ⟨r, _hr, hf⟩
      by_cases hc : 1 < memberCount order gmap r.1
      · rw [if_pos hc] at hf
        have : r.1 = g := Option.some.inj hf
        rw [this] at hc
        omega
      · rw [if_neg hc] at hf
        exact Option.noConfusion hf
    · intro hmem
      rcases List.mem_filterMap.mp hmem with ⟨r, hr, hf⟩
      by_cases hc : 1 < r.2
      · rw [if_pos hc] at hf
        have hg : r.1 = g := Option.some.inj hf
        have hrf : r ∈ (runLengths order gmap).filter (fun r => r.1 = g) :=
          List.mem_filter.mpr ⟨hr, by simp [hg]⟩
        have hle : r.2 ≤ (((runLengths order gmap).filter
            (fun r => r.1 = g)).map Prod.snd).sum :=
          List.single_le_sum (fun x _ => Nat.zero_le x) _
            (List.mem_map.mpr ⟨r, hrf, rfl⟩)
        rw [runLengths_filter_sum, hone] at hle
        omega
      · rw [if_neg hc] at hf
        exact Option.noConfusion hf
  · intro hlen
    rcases List.length_eq_one.mp hlen with ⟨r, hr⟩
    have hrmem : r ∈ (runLengths order gmap).filter (fun x => x.1 = g) := by
      rw [hr]; exact List.mem_singleton.mpr rfl
    have hrruns : r ∈ runLengths order gmap := List.mem_of_mem_filter hrmem
    have hrg : r.1 = g := by
      have := List.of_mem_filter hrmem
      simpa using this
    have hsum : r.2 = memberCount order gmap g := by
      have := runLengths_filter_sum order gmap g
      rw [hr] at this
      simpa using this
    constructor
    · constructor
      · intro hmem
        rcases List.mem_filterMap.mp hmem with ⟨r2, _hr2, hf⟩
        by_cases hc : 1 < memberCount order gmap r2.1
        · have : r2.1 = g := Option.some.inj (by rwa [if_pos hc] at hf)
          rwa [this] at hc
        · rw [if_neg hc] at hf
          exact Option.noConfusion hf
      · intro hc
        exact List.mem_filterMap.mpr ⟨r, hrruns, by rw [hrg, if_pos hc]⟩
    · constructor
      · intro hmem
        rcases List.mem_filterMap.mp hmem with ⟨r2, hr2, hf⟩
        by_cases hc : 1 < r2.2
        · have hg2 : r2.1 = g := Option.some.inj (by rwa [if_pos hc] at hf)
          have : r2 ∈ (runLengths order gmap).filter (fun x => x.1 = g) :=
            List.mem_filter.mpr ⟨hr2, by simp [hg2]⟩
          rw [hr, List.mem_singleton] at this
          rw [this] at hc
          omega
        · rw [if_neg hc] at hf
          exact Option.noConfusion hf
      · intro hc
        refine List.mem_filterMap.mpr ⟨r, hrruns, ?_⟩
        rw [if_pos (by omega : 1 < r.2), hrg]

/-- Witness for `claimC4_amended`: a contiguous two-member group gets its
bracket in both functions. -/
theorem claimC4_witness :
    "G" ∈ stackedDrawnBrackets ["a", "b"] (fun _ => "G")
    ∧ "G" ∈ boxplotDrawnBrackets ["a", "b"] (fun _ => "G") := by
  have h := (claimC4_amended ["a", "b"] (fun _ => "G") "G").2 (by decide)
  exact ⟨h.1.mpr (by decide), h.2.mpr (by decide)⟩

/-- Counterexample to claim C4 as stated: in `create_boxplot`, with meta
values appearing in the order m1, m2, m3 and groups A, B, A (a valid
dataset: each meta value maps to exactly one group), group A has two
members yet no bracket is drawn for it, because each of its runs has a
single member. -/
theorem claimC4_counterexample :
    memberCount ["m1", "m2", "m3"] gmapC4 "A" = 2
    ∧ "A" ∉ boxplotDrawnBrackets ["m1", "m2", "m3"] gmapC4
    ∧ appearanceOrder [("m1", [1]), ("m2", [1]), ("m3", [1])] = ["m1", "m2", "m3"] := by
  refine ⟨by decide, by decide, by decide⟩

/-- Claim C5, evaluated on the code.  `create_dodged_barplot` with no output
path completes and writes nothing; but `create_stacked_barplot` with
`output=None` raises a `TypeError` from the unconditional
`output + ".pdf"` instead of completing, contradicting its own docstring
("If provided, the plot will be saved as a PDF and PNG"). -/
theorem claimC5_save_behavior :
    (∃ msg, stackedSaveStep none = PlotOutcome.raised msg)
    ∧ dodgedSaveStep none = []
    ∧ (∀ o, stackedSaveStep (some o)
        = PlotOutcome.returned [o ++ ".pdf", o ++ ".png", o ++ ".svg"])
    ∧ (∀ o, dodgedSaveStep (some o) = [o ++ ".pdf", o ++ ".png"]) :=
  ⟨⟨_, rfl⟩, rfl, fun _ => rfl, fun _ => rfl⟩

theorem firstError_error_of_mem (checks : List (Bool × String))
    (hb : ∃ c ∈ checks, c.1 = true) :
    ∃ e, firstError checks = Except.error e := by
  induction checks with
  | nil =>
    rcases hb with ⟨c, hc, _⟩
    cases hc
  | cons a rest ih =>
    obtain ⟨b, msg⟩ := a
    by_cases hbv : b = true
    · exact ⟨msg, by rw [firstError, if_pos hbv]⟩
    · rcases hb with ⟨c, hc, hct⟩
      rcases List.mem_cons.mp hc with rfl | hc
      · exact absurd hct hbv
      · rcases ih ⟨c, hc, hct⟩ with ⟨e, he⟩
        exact ⟨e, by rw [firstError, if_neg hbv, he]⟩

theorem inconsistentPairs_of_conflict (pairs : List (String × String))
    (m g1 g2 : String) (h1 : (m, g1) ∈ pairs) (h2 : (m, g2) ∈ pairs)
    (hne : g1 ≠ g2) : inconsistentPairs pairs = true := by
  unfold inconsistentPairs
  suffices h : ¬ ((dedupKeepFirst pairs).map Prod.fst).Nodup by simp [h]
  intro hnd
  have hm1 : (m, g1) ∈ dedupKeepFirst pairs := (mem_dedupKeepFirst _ _).mpr h1
  have hm2 : (m, g2) ∈ dedupKeepFirst pairs := (mem_dedupKeepFirst _ _).mpr h2
  have heq : (m, g1) = (m, g2) := List.inj_on_of_nodup_map hnd hm1 hm2 rfl
  exact hne (congrArg Prod.snd heq)

/-- Claim C6.  `create_stacked_barplot` fails validation — no aggregated
table is produced — whenever the collapse name collides with a reserved
name (`collapse_focus_values_as = 'others'`, or equal to an existing
dataset column outside the value columns and the meta column), and whenever
the axis-to-group mapping is inconsistent (some meta value paired with two
distinct group values while `group_by_column` is set). -/
theorem claimC6_collision_and_grouping (p : StackedParams) (k : ℕ)
    (rows : List Row) (normalize : Bool)
    (h : p.collapse_focus_values_as = some "others"
      ∨ (∃ c, p.collapse_focus_values_as = some c ∧ c ∈ p.datasetCols
          ∧ c ∉ p.value_columns ∧ c ≠ p.meta_column)
      ∨ (p.group_by_column.isSome = true
        ∧ ∃ m g1 g2, (m, g1) ∈ p.metaGroupPairs ∧ (m, g2) ∈ p.metaGroupPairs
            ∧ g1 ≠ g2)) :
    ∃ e, stackedPipeline p k rows normalize = Except.error e := by
  have hval : ∃ e, stackedValidate p = Except.error e := by
    apply firstError_error_of_mem
    rcases h with hcol | ⟨c, hc, hcin, hcnv, hcnm⟩ | ⟨hgs, m, g1, g2, hm1, hm2, hgne⟩
    · refine ⟨((p.collapse_focus_values_as == some "others"),
        "collapse_focus_values_as cannot be named others as it conflicts with an internal category name."),
        by simp [stackedChecks], ?_⟩
      exact beq_iff_eq.mpr hcol
    · refine ⟨(collapseCollision p.collapse_focus_values_as p.datasetCols
          p.value_columns p.meta_column,
        "The chosen name for the collapsed category already exists as a column in the original dataset."),
        by simp [stackedChecks], ?_⟩
      rw [hc]
      unfold collapseCollision
      simp only [Bool.and_eq_true, Bool.not_eq_true']
      refine ⟨⟨List.elem_iff.mpr hcin, ?_⟩, ?_⟩
      · rw [← Bool.not_eq_true, List.elem_iff]
        exact hcnv
      · rw [← Bool.not_eq_true, beq_iff_eq]
        exact hcnm
    · refine ⟨((p.group_by_column.isSome && inconsistentPairs p.metaGroupPairs),
        "Each value in meta_column must correspond to a single value in group_by_column."),
        by simp [stackedChecks], ?_⟩
      rw [Bool.and_eq_true]
      exact ⟨hgs, inconsistentPairs_of_conflict p.metaGroupPairs m g1 g2 hm1 hm2 hgne⟩
  rcases hval with ⟨e, he⟩
  refine ⟨e, ?_⟩
  unfold stackedPipeline
  rw [he]

/-- Witness for `claimC6_collision_and_grouping`: a call whose collapse
name is the reserved `'others'` fails before aggregation. -/
theorem claimC6_witness :
    ∃ e, stackedPipeline
        ⟨["site", "x", "y"], "site", ["x", "y"], ["x"], some "others",
          none, none, none, [], "bottom", "none", "default", none, ["A"],
          none, []⟩ 2 [] true = Except.error e :=
  claimC6_collision_and_grouping _ 2 [] true (Or.inl rfl)

theorem contains_eq_false_of_not_mem {l : List String} {a : String}
    (h : a ∉ l) : l.contains a = false := by
  rw [← Bool.not_eq_true, List.elem_iff]
  exact h

theorem all_contains_eq_false {valueCols cols : List String} {c : String}
    (hc : c ∈ valueCols) (hn : c ∉ cols) :
    valueCols.all (fun x => cols.contains x) = false := by
  rw [Bool.eq_false_iff]
  intro hall
  exact hn (List.elem_iff.mp (List.all_eq_true.mp hall c hc))

/-- Claim C2 (amended).  In every plotting function, a missing referenced
column stops the function during validation, before any plotting: the bar,
box and ridgeline functions raise a ValueError, while `create_heatmap`
prints an error message and returns `None` without raising. -/
theorem claimC2_amended :
    (∀ p : StackedParams,
      (p.meta_column ∉ p.datasetCols ∨ ∃ c ∈ p.value_columns, c ∉ p.datasetCols) →
      ∃ e, stackedValidate p = Except.error e)
    ∧ (∀ cols meta valueCols hue groupBy pairs gpos mo dvals,
      (meta ∉ cols ∨ ∃ c ∈ valueCols, c ∉ cols) →
      ∃ e, boxplotValidate cols meta valueCols hue groupBy pairs gpos mo dvals
        = Except.error e)
    ∧ (∀ cols meta valueCols focus,
      (meta ∉ cols ∨ ∃ c ∈ valueCols, c ∉ cols) →
      ∃ e, dodgedValidate cols meta valueCols focus = Except.error e)
    ∧ (∀ cols xcol dcol ccol xn dn ov co cv nz,
      (xcol ∉ cols ∨ dcol ∉ cols ∨ ccol ∉ cols) →
      ∃ e, ridgelineValidate cols xcol dcol ccol xn dn ov co cv nz
        = Except.error e)
    ∧ (∀ numSamples columnData valueCols metadataCols minA minS,
      (∃ c ∈ valueCols ++ metadataCols, c ∉ columnData.map Prod.fst) →
      heatmapPrepare numSamples columnData valueCols metadataCols minA minS
        = PlotOutcome.returned none) := by
  refine ⟨?_, ?_, ?_, ?_, ?_⟩
  · intro p h
    apply firstError_error_of_mem
    rcases h with h | ⟨c, hc, hn⟩
    · exact ⟨(!(p.datasetCols.contains p.meta_column),
        "Column meta_column not found in the dataset."),
        by simp [stackedChecks],
        by rw [Bool.not_eq_true']; exact contains_eq_false_of_not_mem h⟩
    · exact ⟨(!(p.value_columns.all (fun c => p.datasetCols.contains c)),
        "Not all columns in value_columns found in the dataset."),
        by simp [stackedChecks],
        by rw [Bool.not_eq_true']; exact all_contains_eq_false hc hn⟩
  · intro cols meta valueCols hue groupBy pairs gpos mo dvals h
    apply firstError_error_of_mem
    rcases h with h | ⟨c, hc, hn⟩
    · exact ⟨(!(cols.contains meta),
        "Column meta_column not found in the dataset."),
        by simp [boxplotChecks],
        by rw [Bool.not_eq_true']; exact contains_eq_false_of_not_mem h⟩
    · exact ⟨(!(valueCols.all (fun c => cols.contains c)),
        "Not all columns in value_column found in the dataset."),
        by simp [boxplotChecks],
        by rw [Bool.not_eq_true']; exact all_contains_eq_false hc hn⟩
  · intro cols meta valueCols focus h
    apply firstError_error_of_mem
    rcases h with h | ⟨c, hc, hn⟩
    · exact ⟨(!(cols.contains meta),
        "Column meta_column not found in the dataset."),
        by simp [dodgedChecks],
        by rw [Bool.not_eq_true']; exact contains_eq_false_of_not_mem h⟩
    · exact ⟨(!(valueCols.all (fun c => cols.contains c)),
        "Not all columns in value_columns found in the dataset."),
        by simp [dodgedChecks],
        by rw [Bool.not_eq_true']; exact all_contains_eq_false hc hn⟩
  · intro cols xcol dcol ccol xn dn ov co cv nz h
    apply firstError_error_of_mem
    rcases h with h | h | h
    · exact ⟨(!(cols.contains xcol), "Column x_column not found in the dataset."),
        by simp [ridgelineChecks],
        by rw [Bool.not_eq_true']; exact contains_eq_false_of_not_mem h⟩
    · exact ⟨(!(cols.contains dcol), "Column density_column not found in the dataset."),
        by simp [ridgelineChecks],
        by rw [Bool.not_eq_true']; exact contains_eq_false_of_not_mem h⟩
    · exact ⟨(!(cols.contains ccol), "Column category_column not found in the dataset."),
        by simp [ridgelineChecks],
        by rw [Bool.not_eq_true']; exact contains_eq_false_of_not_mem h⟩
  · intro numSamples columnData valueCols metadataCols minA minS h
    rcases h with ⟨c, hc, hn⟩
    unfold heatmapPrepare
    split_ifs with h1 h2 h3 h4 h5 <;> try rfl
    exfalso
    have hnil : ((valueCols ++ metadataCols).filter
        (fun c => ¬ (c ∈ columnData.map Prod.fst))) = [] := not_not.mp h4
    rw [List.filter_eq_nil_iff] at hnil
    have := hnil c hc
    simp only [decide_eq_true_eq] at this
    exact this hn

/-- Witness for `claimC2_amended`: a dodged-barplot call referencing a
missing value column fails validation. -/
theorem claimC2_witness :
    ∃ e, dodgedValidate ["site", "x"] "site" ["x", "missing"] []
      = Except.error e :=
  claimC2_amended.2.2.1 ["site", "x"] "site" ["x", "missing"] []
    (Or.inr ⟨"missing", by decide, by decide⟩)

/-- Counterexample to claim C2 as stated: `create_heatmap` called with a
metadata column absent from the table does not raise any error — it prints
a message and returns `None` (here: the prepare stage yields
`returned none`, never `raised`). -/
theorem claimC2_counterexample :
    heatmapPrepare 2 [("a", [(1:ℚ), 2])] ["a"] ["grp"] 0 0
      = PlotOutcome.returned none
    ∧ ∀ msg, heatmapPrepare 2 [("a", [(1:ℚ), 2])] ["a"] ["grp"] 0 0
        ≠ PlotOutcome.raised msg := by
  have hEq : heatmapPrepare 2 [("a", [(1:ℚ), 2])] ["a"] ["grp"] 0 0
      = PlotOutcome.returned none := by
    unfold heatmapPrepare
    rw [if_neg (by simp), if_neg (by norm_num), if_neg (by norm_num),
      if_pos (by simp)]
  exact ⟨hEq, fun msg h => by rw [hEq] at h; exact PlotOutcome.noConfusion h⟩

/-- Claim C9.  In `create_stacked_barplot` with `meta_order` provided:
a dataset meta value missing from `meta_order` fails validation with a
ValueError; whereas `meta_order` entries absent from the dataset cause no
error (the subset and duplicate checks still pass) and are silently
dropped from the final x-axis order, which is `meta_order` filtered to the
values present in the aggregated index. -/
theorem claimC9_meta_order (p : StackedParams) (rows : List Row)
    (mo : List String) (hmo : p.meta_order = some mo)
    (hdv : p.datasetMetaValues = appearanceOrder rows) :
    ((∃ m ∈ rows.map Prod.fst, m ∉ mo) → ∃ e, stackedValidate p = Except.error e)
    ∧ ((∀ m ∈ rows.map Prod.fst, m ∈ mo) → mo.Nodup →
        metaOrderNotSubset p.meta_order p.datasetMetaValues = false
        ∧ metaOrderHasDup p.meta_order = false)
    ∧ (∀ x, x ∉ rows.map Prod.fst → x ∉ finalMetaOrder (some mo) rows)
    ∧ finalMetaOrder (some mo) rows = mo.filter (fun m => m ∈ metaKeys rows) := by
  refine ⟨?_, ?_, ?_, rfl⟩
  · rintro ⟨m, hm, hn⟩
    apply firstError_error_of_mem
    refine ⟨(metaOrderNotSubset p.meta_order p.datasetMetaValues,
      "Not all unique values from meta_column are present in meta_order."),
      ?_, ?_⟩
    · simp [stackedChecks]
    · rw [hmo, hdv]
      unfold metaOrderNotSubset
      rw [Bool.not_eq_true']
      exact all_contains_eq_false ((mem_dedupKeepFirst m _).mpr hm) hn
  · intro hsub hnd
    constructor
    · rw [hmo, hdv]
      simp only [metaOrderNotSubset, Bool.not_eq_false', List.all_eq_true]
      intro x hx
      exact List.elem_iff.mpr (hsub x ((mem_dedupKeepFirst x _).mp hx))
    · rw [hmo]
      simp only [metaOrderHasDup, Bool.not_eq_false', List.dedup_eq_self.mpr hnd,
        beq_self_eq_true]
  · intro x hn hmem
    simp only [finalMetaOrder] at hmem
    have hp := List.of_mem_filter hmem
    simp only [decide_eq_true_eq] at hp
    exact hn ((mem_metaKeys x rows).mp hp)

/-- Witness for `claimC9_meta_order`: a meta_order entry absent from the
dataset does not survive into the final x-axis order. -/
theorem claimC9_witness :
    ("Z" : String) ∉ finalMetaOrder (some ["A", "Z"]) [("A", [1])] :=
  (claimC9_meta_order
    ⟨["site"], "site", [], [], none, none, none, none, [], "bottom", "none",
      "default", some ["A", "Z"], appearanceOrder [("A", [1])], none, []⟩
    [("A", [1])] ["A", "Z"] rfl rfl).2.2.1 "Z" (by decide)

/-- Claim C10.  In `create_heatmap`, a value column is retained iff the
fraction of rows with value `>= min_relative_abundance` is at least
`min_sample_percentage`; and when no value column survives the filter, the
function returns `None` without plotting. -/
theorem claimC10_abundance_filter (valueCols : List String)
    (columnData : List (String × List ℚ)) (minRelAb minSampPct : ℚ)
    (numSamples : ℕ) (c : String) (vals : List ℚ)
    (hlook : columnData.lookup c = some vals) :
    (c ∈ heatmapFilter valueCols columnData minRelAb minSampPct numSamples
      ↔ c ∈ valueCols
        ∧ minSampPct ≤ ((vals.countP (fun v => decide (minRelAb ≤ v)) : ℚ)
            / (numSamples : ℚ)))
    ∧ (∀ metadataCols,
        ¬ (numSamples = 0 ∨ columnData = []) →
        (0 ≤ minRelAb ∧ minRelAb ≤ 1) →
        (0 ≤ minSampPct ∧ minSampPct ≤ 1) →
        ((valueCols ++ metadataCols).filter
          (fun x => ¬ (x ∈ columnData.map Prod.fst))) = [] →
        heatmapFilter valueCols columnData minRelAb minSampPct numSamples = [] →
        heatmapPrepare numSamples columnData valueCols metadataCols
          minRelAb minSampPct = PlotOutcome.returned none) := by
  constructor
  · simp only [heatmapFilter, List.mem_filter, hlook, decide_eq_true_eq]
  · intro metadataCols h1 h2 h3 h4 h5
    unfold heatmapPrepare
    rw [if_neg h1, if_neg (not_not_intro h2), if_neg (not_not_intro h3),
      if_neg (not_not_intro h4), if_pos h5]

/-- Witness for `claimC10_abundance_filter`: a column meeting the abundance
threshold in half the rows is kept when `min_sample_percentage` is 0. -/
theorem claimC10_witness :
    "a" ∈ heatmapFilter ["a"] [("a", [1, 0])] 1 0 2 :=
  (claimC10_abundance_filter ["a"] [("a", [1, 0])] 1 0 2 "a" [1, 0] rfl).1.mpr
    ⟨by decide, by positivity⟩

end PlotUtils
